import Mathlib

/-!
A shallow embedding of `src/pipette.py` (the pipette Ryu OpenFlow 1.3
controller) together with theorems settling the specification claims.

Modelling conventions:
* IPv4 addresses, ports, VLAN ids, table ids and OpenFlow numeric
  constants are `Nat` (the Python code manipulates them as unbounded
  Python ints via `ipaddress.IPv4Address`; all arithmetic used is
  bitwise AND/OR on 32-bit values, which never overflows).
* MAC addresses and ARP IP strings stay `String`, as in ryu, since the
  code only copies them around.
* The ryu message constructors (`OFPFlowMod`, `OFPPacketOut`, ...) are
  mirrored as structures holding exactly the fields the program sets,
  with the ryu default values for fields the program leaves unset.
* Event handlers become pure functions from a configuration and the
  parsed event to the list of OpenFlow commands the handler sends via
  `send_mods` / `send_msg` (an early Python `return` sends nothing, so
  it is modelled as discarding all commands accumulated so far).
-/

namespace Pipette

/-! ## OpenFlow / protocol numeric constants (ryu `ofproto_v1_3`, `ether`, `socket`, `arp`) -/

def ETH_TYPE_IP : Nat := 0x0800
def ETH_TYPE_ARP : Nat := 0x0806
def ETH_TYPE_8021Q : Nat := 0x8100
def IPPROTO_TCP : Nat := 6
def ARP_REQUEST : Nat := 1
def ARP_REPLY : Nat := 2
def OFPP_CONTROLLER : Nat := 0xfffffffd
def OFPP_ANY : Nat := 0xffffffff
def OFPG_ANY : Nat := 0xffffffff
def OFP_NO_BUFFER : Nat := 0xffffffff
def OFPVID_PRESENT : Nat := 0x1000
def OFPFC_ADD : Nat := 0
def OFPFC_DELETE : Nat := 3
def OFP_DEFAULT_PRIORITY : Nat := 0x8000

/-! ## Configuration (module-level constants, src/pipette.py lines 32-48) -/

/-- The fake-subnet interface, `ipaddress.ip_interface(NFVIP)`:
the interface address itself (`.ip`) and the prefix length. -/
structure IPInterface where
  ip : Nat
  prefixlen : Nat
deriving DecidableEq

/-- `int(NFVIP.hostmask)`: the low `32 - prefixlen` bits set. -/
def hostmask (i : IPInterface) : Nat := 2 ^ (32 - i.prefixlen) - 1

/-- `int(NFVIP.network.network_address)`: the interface address with the
host bits cleared. -/
def network_address (i : IPInterface) : Nat := i.ip &&& (0xffffffff ^^^ hostmask i)

/-- The static configuration of src/pipette.py lines 35-48.  `idle`
mirrors the module constant `IDLE` (line 48). -/
structure Config where
  coproport : Nat
  fakeport : Nat
  fakeservermac : String
  fakeclientmac : String
  vlan : Nat
  nfvip : IPInterface
  idle : Nat
deriving DecidableEq

/-- Dotted-quad / prefix parsing helper: split a character list at a
separator character (used to model `ipaddress` string parsing). -/
def splitOnChar (c : Char) (l : List Char) : List (List Char) :=
  match l with
  | [] => [[]]
  | x :: xs =>
    match splitOnChar c xs with
    | [] => [[]]
    | y :: ys => if x = c then [] :: y :: ys else (x :: y) :: ys

/-- Accumulating decimal value of a digit string; `none` on a non-digit. -/
def digitsVal (l : List Char) (acc : Nat) : Option Nat :=
  match l with
  | [] => some acc
  | c :: cs => if c.isDigit then digitsVal cs (acc * 10 + (c.toNat - 48)) else none

/-- Python `int(s)` for the non-negative decimal strings the
configuration uses (`none` models the `ValueError` on garbage). -/
def pyIntChars (l : List Char) : Option Nat :=
  match l with
  | [] => none
  | _ => digitsVal l 0

def pyInt (s : String) : Option Nat := pyIntChars s.data

/-- One dotted-quad octet: a decimal value at most 255. -/
def octet_val (l : List Char) : Option Nat :=
  match pyIntChars l with
  | some v => if v ≤ 255 then some v else none
  | none => none

/-- `int(ipaddress.IPv4Address(dotted-quad string))`. -/
def parseIPv4 (l : List Char) : Option Nat :=
  match splitOnChar '.' l with
  | [a, b, c, d] =>
    match octet_val a, octet_val b, octet_val c, octet_val d with
    | some x, some y, some z, some w => some (((x * 256 + y) * 256 + z) * 256 + w)
    | _, _, _, _ => none
  | _ => none

/-- `ipaddress.ip_interface(s)` for IPv4 strings: `addr/prefix`, or a
bare address meaning `/32`. -/
def ip_interface (s : String) : Option IPInterface :=
  match splitOnChar '/' s.data with
  | [a] => (parseIPv4 a).map (fun ip => { ip := ip, prefixlen := 32 })
  | [a, p] =>
    match parseIPv4 a, pyIntChars p with
    | some ip, some pl => if pl ≤ 32 then some { ip := ip, prefixlen := pl } else none
    | _, _ => none
  | _ => none

/-- `os.getenv(name, default)`. -/
def getenv (env : String → Option String) (name default : String) : String :=
  (env name).getD default

/-- The module-level configuration reads, src/pipette.py lines 35-48:
`COPROPORT`, `FAKEPORT`, `FAKESERVERMAC`, `FAKECLIENTMAC`, `VLAN` and
`NFVIP` come from the environment with the documented defaults; `IDLE`
is the literal constant `30` (line 48) and is not read from the
environment.  `none` models a crash of one of the `int()` /
`ip_interface()` conversions. -/
def loadConfig (env : String → Option String) : Option Config :=
  match pyInt (getenv env ("COPROPORT") ("1")), pyInt (getenv env ("FAKEPORT") ("2")),
        pyInt (getenv env ("VLAN") ("2")), ip_interface (getenv env ("NFVIP") ("192.168.101.1/24")) with
  | some coproport, some fakeport, some vlan, some nfvip =>
    some { coproport := coproport, fakeport := fakeport,
           fakeservermac := getenv env ("FAKESERVERMAC") ("0e:00:00:00:00:66"),
           fakeclientmac := getenv env ("FAKECLIENTMAC") ("0e:00:00:00:00:67"),
           vlan := vlan, nfvip := nfvip, idle := 30 }
  | _, _, _, _ => none

/-- Numeric value of a dotted quad given as four octets. -/
def ip_num (a b c d : Nat) : Nat := ((a * 256 + b) * 256 + c) * 256 + d

/-- The configuration produced by the documented defaults. -/
def default_config : Config :=
  { coproport := 1, fakeport := 2,
    fakeservermac := "0e:00:00:00:00:66", fakeclientmac := "0e:00:00:00:00:67",
    vlan := 2, nfvip := { ip := ip_num 192 168 101 1, prefixlen := 24 }, idle := 30 }

/-! ## Parsed packets (the ryu packet codec view used by the handlers) -/

/-- `ryu.lib.packet.ethernet.ethernet` (constructor order: dst, src, ethertype). -/
structure Ethernet where
  dst : String
  src : String
  ethertype : Nat
deriving DecidableEq

/-- `ryu.lib.packet.arp.arp`: the fields the program reads or sets. -/
structure ArpPkt where
  opcode : Nat
  src_mac : String
  dst_mac : String
  src_ip : String
  dst_ip : String
deriving DecidableEq

/-- `ryu.lib.packet.ipv4.ipv4`: addresses as their 32-bit numeric value
(the code converts the ryu strings through `ipaddress.IPv4Address`). -/
structure Ipv4Pkt where
  src : Nat
  dst : Nat
deriving DecidableEq

/-- `ryu.lib.packet.tcp.tcp`: the two ports. -/
structure TcpPkt where
  src_port : Nat
  dst_port : Nat
deriving DecidableEq

/-- A parsed packet-in payload: the mandatory Ethernet header
(`pkt.get_protocols(ethernet.ethernet)[0]`) and the optional protocol
layers the handler probes with `pkt.get_protocol`. -/
structure PacketIn where
  eth : Ethernet
  arp_pkt : Option ArpPkt
  ip4 : Option Ipv4Pkt
  tcp4 : Option TcpPkt
deriving DecidableEq

/-! ## OpenFlow messages built by the program -/

/-- The actions the program uses (`OFPActionOutput`, `OFPActionPopVlan`,
`OFPActionPushVlan`, `OFPActionSetField` on the listed fields). -/
inductive Action where
  | output (port : Nat)
  | popVlan
  | pushVlan (ethertype : Nat)
  | setEthSrc (mac : String)
  | setEthDst (mac : String)
  | setIpv4Src (addr : Nat)
  | setIpv4Dst (addr : Nat)
  | setVlanVid (vid : Nat)
deriving DecidableEq

/-- `OFPInstructionActions(OFPIT_APPLY_ACTIONS, ...)` and
`OFPInstructionGotoTable`. -/
inductive Instruction where
  | applyActions (actions : List Action)
  | gotoTable (table_id : Nat)
deriving DecidableEq

/-- `OFPMatch`: only the fields the program ever sets; `none` means the
field is wildcarded.  `vlan_vid` is the (value, mask) pair form. -/
structure Match where
  in_port : Option Nat := none
  eth_type : Option Nat := none
  eth_src : Option String := none
  vlan_vid : Option (Nat × Nat) := none
  ip_proto : Option Nat := none
  ipv4_dst : Option Nat := none
  tcp_src : Option Nat := none
  tcp_dst : Option Nat := none
deriving DecidableEq

/-- `OFPFlowMod` with ryu's default values for the fields pipette leaves
unset (ryu defaults: `table_id=0`, `command=OFPFC_ADD`,
`idle_timeout=0`, `priority=OFP_DEFAULT_PRIORITY`, `out_port=0`,
`out_group=0`, wildcard match, no instructions). -/
structure FlowMod where
  command : Nat := OFPFC_ADD
  table_id : Nat := 0
  priority : Nat := OFP_DEFAULT_PRIORITY
  out_port : Nat := 0
  out_group : Nat := 0
  mtch : Match := {}
  idle_timeout : Nat := 0
  instructions : List Instruction := []
deriving DecidableEq

/-- The synthesized ARP reply packet (Ethernet header + ARP payload),
src/pipette.py lines 133-141. -/
structure OutPkt where
  eth : Ethernet
  arp_pkt : ArpPkt
deriving DecidableEq

/-- `OFPPacketOut` with the fields the program sets. -/
structure PacketOut where
  buffer_id : Nat
  in_port : Nat
  actions : List Action
  data : OutPkt
deriving DecidableEq

/-- A message passed to `datapath.send_msg` by `send_mods`. -/
inductive Command where
  | flowMod (fm : FlowMod)
  | packetOut (po : PacketOut)
deriving DecidableEq

/-! ## The handlers -/

/-- `Pipette.apply_actions`, src/pipette.py lines 59-60. -/
def apply_actions (actions : List Action) : List Instruction :=
  [Instruction.applyActions actions]

/-- `Pipette.output_controller`, src/pipette.py lines 62-63. -/
def output_controller : List Instruction :=
  apply_actions [Action.output OFPP_CONTROLLER]

/-- `switch_features_handler`, src/pipette.py lines 65-115: the list of
flow mods sent on a switch-features (connect) event, in order. -/
def switch_features_handler (cfg : Config) : List Command :=
  Command.flowMod { command := OFPFC_DELETE, out_port := OFPP_ANY, out_group := OFPG_ANY } ::
  ([0, 1, 2].map (fun table_id =>
    Command.flowMod { command := OFPFC_ADD, table_id := table_id, priority := 0,
                      instructions := [] })) ++
  ([ (1, ({ eth_type := some ETH_TYPE_IP, ip_proto := some IPPROTO_TCP } : Match),
      output_controller),
     (2, ({ eth_type := some ETH_TYPE_ARP } : Match),
      output_controller),
     (0, ({ vlan_vid := some (0x1000, 0x1000), in_port := some cfg.coproport } : Match),
      apply_actions [Action.popVlan] ++ [Instruction.gotoTable 1]),
     (0, ({ eth_type := some ETH_TYPE_IP, in_port := some cfg.coproport } : Match),
      [Instruction.gotoTable 1]),
     (0, ({ eth_type := some ETH_TYPE_IP, in_port := some cfg.fakeport } : Match),
      [Instruction.gotoTable 2]),
     (0, ({ eth_type := some ETH_TYPE_ARP, in_port := some cfg.fakeport } : Match),
      [Instruction.gotoTable 2]) ].map (fun tmi =>
    Command.flowMod { command := OFPFC_ADD, table_id := tmi.1, priority := 1,
                      mtch := tmi.2.1, instructions := tmi.2.2 }))

/-- `src_ipv4_nat`, src/pipette.py lines 159-160:
`(int(ipv4_src) & int(NFVIP.hostmask)) | int(NFVIP.network.network_address)`. -/
def src_ipv4_nat (cfg : Config) (ipv4_src : Nat) : Nat :=
  (ipv4_src &&& hostmask cfg.nfvip) ||| network_address cfg.nfvip

/-- Forward (inbound) rule match, src/pipette.py lines 162-165. -/
def fwd_match (eth : Ethernet) (ip4 : Ipv4Pkt) (tcp4 : TcpPkt) : Match :=
  { eth_type := some ETH_TYPE_IP, eth_src := some eth.src,
    ipv4_dst := some ip4.dst, ip_proto := some IPPROTO_TCP,
    tcp_dst := some tcp4.dst_port, tcp_src := some tcp4.src_port }

/-- Forward (inbound) rule actions, src/pipette.py lines 166-171. -/
def fwd_actions (cfg : Config) (ip4 : Ipv4Pkt) : List Action :=
  [ Action.setEthSrc cfg.fakeclientmac,
    Action.setEthDst cfg.fakeservermac,
    Action.setIpv4Src (src_ipv4_nat cfg ip4.src),
    Action.setIpv4Dst cfg.nfvip.ip,
    Action.output cfg.fakeport ]

/-- Forward (inbound) translation flow mod, src/pipette.py lines 172-179. -/
def fwd_flowmod (cfg : Config) (eth : Ethernet) (ip4 : Ipv4Pkt) (tcp4 : TcpPkt) : FlowMod :=
  { command := OFPFC_ADD, table_id := 1, priority := 2,
    mtch := fwd_match eth ip4 tcp4, idle_timeout := cfg.idle,
    instructions := apply_actions (fwd_actions cfg ip4) }

/-- Reverse (outbound) rule match, src/pipette.py lines 181-184. -/
def rev_match (cfg : Config) (ip4 : Ipv4Pkt) (tcp4 : TcpPkt) : Match :=
  { eth_type := some ETH_TYPE_IP,
    ipv4_dst := some (src_ipv4_nat cfg ip4.src), ip_proto := some IPPROTO_TCP,
    tcp_src := some tcp4.dst_port, tcp_dst := some tcp4.src_port }

/-- Reverse (outbound) rule actions, src/pipette.py lines 185-192. -/
def rev_actions (cfg : Config) (eth : Ethernet) (ip4 : Ipv4Pkt) : List Action :=
  [ Action.setEthSrc eth.dst,
    Action.setEthDst eth.src,
    Action.setIpv4Src ip4.dst,
    Action.setIpv4Dst ip4.src,
    Action.pushVlan ETH_TYPE_8021Q,
    Action.setVlanVid (cfg.vlan ||| OFPVID_PRESENT),
    Action.output cfg.coproport ]

/-- Reverse (outbound) translation flow mod, src/pipette.py lines 193-200. -/
def rev_flowmod (cfg : Config) (eth : Ethernet) (ip4 : Ipv4Pkt) (tcp4 : TcpPkt) : FlowMod :=
  { command := OFPFC_ADD, table_id := 2, priority := 2,
    mtch := rev_match cfg ip4 tcp4, idle_timeout := cfg.idle,
    instructions := apply_actions (rev_actions cfg eth ip4) }

/-- The `OFPPacketOut` built for an ARP request, src/pipette.py lines
132-148: an ARP reply from the fake-client MAC to the fake-server MAC
with the request's IPs swapped, output on the fake port. -/
def arp_reply_out (cfg : Config) (arp_req : ArpPkt) : PacketOut :=
  { buffer_id := OFP_NO_BUFFER, in_port := OFPP_CONTROLLER,
    actions := [Action.output cfg.fakeport],
    data := { eth := { dst := cfg.fakeservermac, src := cfg.fakeclientmac,
                       ethertype := ETH_TYPE_ARP },
              arp_pkt := { opcode := ARP_REPLY,
                           src_mac := cfg.fakeclientmac, dst_mac := cfg.fakeservermac,
                           src_ip := arp_req.dst_ip, dst_ip := arp_req.src_ip } } }

/-- The `in_port == FAKEPORT` block, src/pipette.py lines 126-148:
`none` models the early `return` when the payload is not ARP. -/
def fake_port_mods (cfg : Config) (pkt : PacketIn) : Option (List Command) :=
  match pkt.arp_pkt with
  | none => none
  | some arp_req =>
    if arp_req.opcode = ARP_REQUEST then
      some [Command.packetOut (arp_reply_out cfg arp_req)]
    else
      some []

/-- The `in_port == COPROPORT` block, src/pipette.py lines 149-200:
`none` models the early `return` when the payload is not IPv4/TCP. -/
def copro_port_mods (cfg : Config) (pkt : PacketIn) : Option (List Command) :=
  match pkt.ip4 with
  | none => none
  | some ip4 =>
    match pkt.tcp4 with
    | none => none
    | some tcp4 =>
      some [Command.flowMod (fwd_flowmod cfg pkt.eth ip4 tcp4),
            Command.flowMod (rev_flowmod cfg pkt.eth ip4 tcp4)]

/-- `_packet_in_handler`, src/pipette.py lines 117-201: the commands
sent for one packet-in.  A Python `return` inside a block aborts the
whole handler before `send_mods`, discarding any commands accumulated
so far; this is the `Option.bind` with the final `getD []`. -/
def _packet_in_handler (cfg : Config) (in_port : Nat) (pkt : PacketIn) : List Command :=
  ((if in_port = cfg.fakeport then fake_port_mods cfg pkt else some []).bind
    (fun mods =>
      if in_port = cfg.coproport then
        (copro_port_mods cfg pkt).map (fun more => mods ++ more)
      else
        some mods)).getD []

/-! ## The switch's flow-table state

The spec (§3, §4.4, §9) makes the switch's tables the durable state,
mutated only by the commands above, with replace-on-identical-match
semantics: an `OFPFC_ADD` whose (table, priority, match) key equals an
installed rule's key replaces that rule.  The state is the list of
installed `FlowMod`s. -/

/-- The flow-table key under replace-on-identical-match semantics. -/
def flow_key (fm : FlowMod) : Nat × Nat × Match :=
  (fm.table_id, fm.priority, fm.mtch)

/-- Effect of one command on the flow tables.  A packet-out leaves the
tables untouched; `OFPFC_DELETE` (issued by pipette only with a
wildcard match) removes every rule of its table; `OFPFC_ADD` replaces
any rule with the identical (table, priority, match) key. -/
def apply_cmd (st : List FlowMod) (c : Command) : List FlowMod :=
  match c with
  | Command.packetOut _ => st
  | Command.flowMod fm =>
    if fm.command = OFPFC_DELETE then
      st.filter (fun e => ! decide (e.table_id = fm.table_id))
    else if fm.command = OFPFC_ADD then
      st.filter (fun e => ! decide (flow_key e = flow_key fm)) ++ [fm]
    else st

/-- The controller events the program handles. -/
inductive Event where
  | features
  | packetIn (in_port : Nat) (pkt : PacketIn)

/-- The commands the program emits for one event. -/
def event_cmds (cfg : Config) (ev : Event) : List Command :=
  match ev with
  | Event.features => switch_features_handler cfg
  | Event.packetIn in_port pkt => _packet_in_handler cfg in_port pkt

/-- The flow-table state reached from empty tables by a sequence of
events handled by the program. -/
def run_events (cfg : Config) (evs : List Event) : List FlowMod :=
  evs.foldl (fun st ev => (event_cmds cfg ev).foldl apply_cmd st) []

/-- Number of installed rules with a given (table, priority, match) key. -/
def count_key (st : List FlowMod) (k : Nat × Nat × Match) : Nat :=
  (st.filter (fun e => decide (flow_key e = k))).length

/-- Does an instruction apply an action rewriting `ipv4_src` to `n`? -/
def sets_ipv4_src (n : Nat) (ins : Instruction) : Bool :=
  match ins with
  | Instruction.applyActions actions =>
    actions.any (fun a =>
      match a with
      | Action.setIpv4Src m => decide (m = n)
      | _ => false)
  | _ => false

/-- Number of installed translation rules associated with the NAT'd
fake address `n`: priority-2 rules in table 1 whose actions rewrite
`ipv4_src` to `n` (forward direction) plus priority-2 rules in table 2
whose match requires `ipv4_dst = n` (reverse direction). -/
def rules_for_nat (st : List FlowMod) (n : Nat) : Nat :=
  (st.filter (fun fm =>
    (decide (fm.table_id = 1) && decide (fm.priority = 2) &&
      fm.instructions.any (sets_ipv4_src n)) ||
    (decide (fm.table_id = 2) && decide (fm.priority = 2) &&
      decide (fm.mtch.ipv4_dst = some n)))).length

/-! ## Packet-rewrite semantics of an action list

Used to state the forward/reverse round-trip property: the effect of a
rule's `OFPActionSetField` list on the relevant header fields of a
packet passing through the switch. -/

/-- The header fields of a packet flowing through the switch. -/
structure PktState where
  eth_src : String
  eth_dst : String
  ipv4_src : Nat
  ipv4_dst : Nat
  tcp_src : Nat
  tcp_dst : Nat
  vlan_vid : Option Nat
deriving DecidableEq

/-- OpenFlow semantics of one action applied to a packet's headers
(`output` forwards and does not rewrite). -/
def apply_action (p : PktState) (a : Action) : PktState :=
  match a with
  | Action.output _ => p
  | Action.popVlan => { p with vlan_vid := none }
  | Action.pushVlan _ => p
  | Action.setEthSrc m => { p with eth_src := m }
  | Action.setEthDst m => { p with eth_dst := m }
  | Action.setIpv4Src addr => { p with ipv4_src := addr }
  | Action.setIpv4Dst addr => { p with ipv4_dst := addr }
  | Action.setVlanVid v => { p with vlan_vid := some v }

/-- Left-to-right application of an apply-actions list. -/
def apply_action_list (actions : List Action) (p : PktState) : PktState :=
  actions.foldl apply_action p

/-- The answering packet of `p`: source and destination roles swapped. -/
def swap_pkt (p : PktState) : PktState :=
  { p with eth_src := p.eth_dst, eth_dst := p.eth_src,
           ipv4_src := p.ipv4_dst, ipv4_dst := p.ipv4_src,
           tcp_src := p.tcp_dst, tcp_dst := p.tcp_src }

/-! ## Sample concrete inputs -/

def sample_eth : Ethernet :=
  { dst := "0e:00:00:00:00:11", src := "0e:00:00:00:00:12", ethertype := ETH_TYPE_IP }

def sample_ip4 : Ipv4Pkt := { src := ip_num 10 0 0 42, dst := ip_num 192 168 101 1 }

def sample_tcp : TcpPkt := { src_port := 5000, dst_port := 80 }

/-- A TCP SYN as seen on the coprocessor port. -/
def sample_tcp_pkt : PacketIn :=
  { eth := sample_eth, arp_pkt := none, ip4 := some sample_ip4, tcp4 := some sample_tcp }

/-- The same flow's host using a second TCP source port. -/
def sample_tcp_pkt2 : PacketIn :=
  { eth := sample_eth, arp_pkt := none, ip4 := some sample_ip4,
    tcp4 := some { src_port := 5001, dst_port := 80 } }

def sample_arp_req : ArpPkt :=
  { opcode := ARP_REQUEST, src_mac := "0e:00:00:00:00:66", dst_mac := "ff:ff:ff:ff:ff:ff",
    src_ip := "192.168.101.1", dst_ip := "192.168.101.42" }

/-- An ARP request as seen on the fake port. -/
def sample_arp_pkt : PacketIn :=
  { eth := { dst := "ff:ff:ff:ff:ff:ff", src := "0e:00:00:00:00:66",
             ethertype := ETH_TYPE_ARP },
    arp_pkt := some sample_arp_req, ip4 := none, tcp4 := none }

/-- An environment assigning the value 60 to every variable (NFVIP, an
address, gets 10.1.2.3/16 instead so that its parse succeeds). -/
def env_sixty : String → Option String :=
  fun n => if n = "NFVIP" then some ("10.1.2.3/16") else some ("60")

/-! ## Claims -/

/-- Claim C3: the address mapper is the pure function
`nat_addr = (real_addr AND fake_hostmask) OR fake_network_address`
over 32-bit IPv4 addresses, and with fake network 192.168.101.1/24 the
real host 10.0.0.42 maps to 192.168.101.42. -/
theorem address_mapper_formula :
    (∀ (cfg : Config) (real_addr : Nat),
      src_ipv4_nat cfg real_addr =
        (real_addr &&& hostmask cfg.nfvip) ||| network_address cfg.nfvip)
    ∧ src_ipv4_nat default_config (ip_num 10 0 0 42) = ip_num 192 168 101 42 :=
  ⟨fun _ _ => rfl, by decide⟩

/-- Claim C4: on every switch-connect (features) event the bootstrapper
issues, in order: one delete-all command (wildcard match, any output
port/group), one priority-0 empty-instruction rule for each of tables
0, 1, 2, and the six priority-1 dispatch rules — ten commands total. -/
theorem bootstrap_commands (cfg : Config) :
    switch_features_handler cfg =
      [ Command.flowMod { command := OFPFC_DELETE, out_port := OFPP_ANY, out_group := OFPG_ANY },
        Command.flowMod { command := OFPFC_ADD, table_id := 0, priority := 0, instructions := [] },
        Command.flowMod { command := OFPFC_ADD, table_id := 1, priority := 0, instructions := [] },
        Command.flowMod { command := OFPFC_ADD, table_id := 2, priority := 0, instructions := [] },
        Command.flowMod { command := OFPFC_ADD, table_id := 1, priority := 1,
                          mtch := { eth_type := some ETH_TYPE_IP, ip_proto := some IPPROTO_TCP },
                          instructions := [Instruction.applyActions [Action.output OFPP_CONTROLLER]] },
        Command.flowMod { command := OFPFC_ADD, table_id := 2, priority := 1,
                          mtch := { eth_type := some ETH_TYPE_ARP },
                          instructions := [Instruction.applyActions [Action.output OFPP_CONTROLLER]] },
        Command.flowMod { command := OFPFC_ADD, table_id := 0, priority := 1,
                          mtch := { vlan_vid := some (0x1000, 0x1000), in_port := some cfg.coproport },
                          instructions := [Instruction.applyActions [Action.popVlan],
                                           Instruction.gotoTable 1] },
        Command.flowMod { command := OFPFC_ADD, table_id := 0, priority := 1,
                          mtch := { eth_type := some ETH_TYPE_IP, in_port := some cfg.coproport },
                          instructions := [Instruction.gotoTable 1] },
        Command.flowMod { command := OFPFC_ADD, table_id := 0, priority := 1,
                          mtch := { eth_type := some ETH_TYPE_IP, in_port := some cfg.fakeport },
                          instructions := [Instruction.gotoTable 2] },
        Command.flowMod { command := OFPFC_ADD, table_id := 0, priority := 1,
                          mtch := { eth_type := some ETH_TYPE_ARP, in_port := some cfg.fakeport },
                          instructions := [Instruction.gotoTable 2] } ] := by
  rfl

/-- Claim C1: a packet-in on the coprocessor port that parses as
Ethernet, IPv4 and TCP makes the handler install a forward rule in
table 1 at priority 2 with the configured idle-timeout, matching
(ethertype=IPv4, eth_src, ipv4_dst, ip_proto=TCP, tcp_dst, tcp_src)
and rewriting eth_src to the fake-client MAC, eth_dst to the
fake-server MAC, ip_src to the NAT address, ip_dst to the
fake-interface address, then outputting to the fake port. -/
theorem fwd_rule_installed (cfg : Config) (in_port : Nat) (pkt : PacketIn)
    (ip4 : Ipv4Pkt) (tcp4 : TcpPkt)
    (hport : in_port = cfg.coproport) (hne : cfg.coproport ≠ cfg.fakeport)
    (hip : pkt.ip4 = some ip4) (htcp : pkt.tcp4 = some tcp4) :
    Command.flowMod
      { command := OFPFC_ADD, table_id := 1, priority := 2,
        mtch := { eth_type := some ETH_TYPE_IP, eth_src := some pkt.eth.src,
                  ipv4_dst := some ip4.dst, ip_proto := some IPPROTO_TCP,
                  tcp_dst := some tcp4.dst_port, tcp_src := some tcp4.src_port },
        idle_timeout := cfg.idle,
        instructions := [Instruction.applyActions
          [ Action.setEthSrc cfg.fakeclientmac,
            Action.setEthDst cfg.fakeservermac,
            Action.setIpv4Src (src_ipv4_nat cfg ip4.src),
            Action.setIpv4Dst cfg.nfvip.ip,
            Action.output cfg.fakeport ]] }
      ∈ _packet_in_handler cfg in_port pkt := by
  subst hport
  simp [_packet_in_handler, hne, copro_port_mods, hip, htcp,
        fwd_flowmod, fwd_match, fwd_actions, apply_actions]

/-- Witness for C1 at a concrete configuration and packet. -/
theorem fwd_rule_installed_witness :
    Command.flowMod
      { command := OFPFC_ADD, table_id := 1, priority := 2,
        mtch := { eth_type := some ETH_TYPE_IP, eth_src := some sample_tcp_pkt.eth.src,
                  ipv4_dst := some sample_ip4.dst, ip_proto := some IPPROTO_TCP,
                  tcp_dst := some sample_tcp.dst_port, tcp_src := some sample_tcp.src_port },
        idle_timeout := default_config.idle,
        instructions := [Instruction.applyActions
          [ Action.setEthSrc default_config.fakeclientmac,
            Action.setEthDst default_config.fakeservermac,
            Action.setIpv4Src (src_ipv4_nat default_config sample_ip4.src),
            Action.setIpv4Dst default_config.nfvip.ip,
            Action.output default_config.fakeport ]] }
      ∈ _packet_in_handler default_config 1 sample_tcp_pkt :=
  fwd_rule_installed default_config 1 sample_tcp_pkt sample_ip4 sample_tcp
    (by rfl) (by decide) (by rfl) (by rfl)

/-- Claim C2: for the same trigger the handler also installs the
reverse rule in table 2 at priority 2 with the same idle-timeout,
matching (ethertype=IPv4, ipv4_dst=NAT address, ip_proto=TCP, TCP
ports swapped) and rewriting eth_src/eth_dst to the observed
dst/src MACs, ip_src/ip_dst to the original ip.dst/ip.src, pushing a
VLAN tag with the configured VLAN id, and outputting to the
coprocessor port — and exactly these two rules, forward then reverse,
are the commands issued. -/
theorem learned_flow_commands (cfg : Config) (in_port : Nat) (pkt : PacketIn)
    (ip4 : Ipv4Pkt) (tcp4 : TcpPkt)
    (hport : in_port = cfg.coproport) (hne : cfg.coproport ≠ cfg.fakeport)
    (hip : pkt.ip4 = some ip4) (htcp : pkt.tcp4 = some tcp4) :
    _packet_in_handler cfg in_port pkt =
      [ Command.flowMod
          { command := OFPFC_ADD, table_id := 1, priority := 2,
            mtch := { eth_type := some ETH_TYPE_IP, eth_src := some pkt.eth.src,
                      ipv4_dst := some ip4.dst, ip_proto := some IPPROTO_TCP,
                      tcp_dst := some tcp4.dst_port, tcp_src := some tcp4.src_port },
            idle_timeout := cfg.idle,
            instructions := [Instruction.applyActions
              [ Action.setEthSrc cfg.fakeclientmac,
                Action.setEthDst cfg.fakeservermac,
                Action.setIpv4Src (src_ipv4_nat cfg ip4.src),
                Action.setIpv4Dst cfg.nfvip.ip,
                Action.output cfg.fakeport ]] },
        Command.flowMod
          { command := OFPFC_ADD, table_id := 2, priority := 2,
            mtch := { eth_type := some ETH_TYPE_IP,
                      ipv4_dst := some (src_ipv4_nat cfg ip4.src), ip_proto := some IPPROTO_TCP,
                      tcp_src := some tcp4.dst_port, tcp_dst := some tcp4.src_port },
            idle_timeout := cfg.idle,
            instructions := [Instruction.applyActions
              [ Action.setEthSrc pkt.eth.dst,
                Action.setEthDst pkt.eth.src,
                Action.setIpv4Src ip4.dst,
                Action.setIpv4Dst ip4.src,
                Action.pushVlan ETH_TYPE_8021Q,
                Action.setVlanVid (cfg.vlan ||| OFPVID_PRESENT),
                Action.output cfg.coproport ]] } ] := by
  subst hport
  simp [_packet_in_handler, hne, copro_port_mods, hip, htcp,
        fwd_flowmod, fwd_match, fwd_actions,
        rev_flowmod, rev_match, rev_actions, apply_actions]

/-- Witness for C2 at a concrete configuration and packet. -/
theorem learned_flow_commands_witness :
    _packet_in_handler default_config 1 sample_tcp_pkt =
      [ Command.flowMod (fwd_flowmod default_config sample_eth sample_ip4 sample_tcp),
        Command.flowMod (rev_flowmod default_config sample_eth sample_ip4 sample_tcp) ] :=
  learned_flow_commands default_config 1 sample_tcp_pkt sample_ip4 sample_tcp
    (by rfl) (by decide) (by rfl) (by rfl)

/-- Claim C5: a packet-in on the fake-segment port parsing as an ARP
request with source IP S and destination IP D makes the handler send
exactly one ARP reply out the fake-segment port with
src_mac = fake-client MAC, dst_mac = fake-server MAC, src_ip = D,
dst_ip = S. -/
theorem arp_reply_sent (cfg : Config) (in_port : Nat) (pkt : PacketIn)
    (arp_req : ArpPkt)
    (hport : in_port = cfg.fakeport) (hne : cfg.fakeport ≠ cfg.coproport)
    (harp : pkt.arp_pkt = some arp_req) (hop : arp_req.opcode = ARP_REQUEST) :
    _packet_in_handler cfg in_port pkt =
      [ Command.packetOut
          { buffer_id := OFP_NO_BUFFER, in_port := OFPP_CONTROLLER,
            actions := [Action.output cfg.fakeport],
            data := { eth := { dst := cfg.fakeservermac, src := cfg.fakeclientmac,
                               ethertype := ETH_TYPE_ARP },
                      arp_pkt := { opcode := ARP_REPLY,
                                   src_mac := cfg.fakeclientmac,
                                   dst_mac := cfg.fakeservermac,
                                   src_ip := arp_req.dst_ip,
                                   dst_ip := arp_req.src_ip } } } ] := by
  subst hport
  simp [_packet_in_handler, hne, fake_port_mods, harp, hop, arp_reply_out,
        Ne.symm hne]

/-- Witness for C5 at a concrete configuration and ARP request. -/
theorem arp_reply_sent_witness :
    _packet_in_handler default_config 2 sample_arp_pkt =
      [Command.packetOut (arp_reply_out default_config sample_arp_req)] :=
  arp_reply_sent default_config 2 sample_arp_pkt sample_arp_req
    (by rfl) (by decide) (by rfl) (by rfl)

/-- Claim C7: a malformed or irrelevant packet-in — a coprocessor-port
payload that is not IPv4+TCP, a fake-port payload that is not ARP or
not an ARP request, or a payload on any other port — makes the handler
issue zero commands and return without error. -/
theorem irrelevant_packet_in_ignored (cfg : Config) (in_port : Nat) (pkt : PacketIn)
    (h : (in_port = cfg.coproport ∧ (pkt.ip4 = none ∨ pkt.tcp4 = none))
       ∨ (in_port = cfg.fakeport ∧ pkt.arp_pkt = none)
       ∨ (in_port = cfg.fakeport ∧ in_port ≠ cfg.coproport ∧
            ∀ a, pkt.arp_pkt = some a → a.opcode ≠ ARP_REQUEST)
       ∨ (in_port ≠ cfg.coproport ∧ in_port ≠ cfg.fakeport)) :
    _packet_in_handler cfg in_port pkt = [] := by
  rcases h with ⟨hp, hbad⟩ | ⟨hp, harp⟩ | ⟨hp, hnc, hop⟩ | ⟨h1, h2⟩
  · subst hp
    have hc : copro_port_mods cfg pkt = none := by
      rcases hbad with hip | htcp
      · simp [copro_port_mods, hip]
      · cases hip : pkt.ip4 <;> simp [copro_port_mods, hip, htcp]
    by_cases hf : cfg.coproport = cfg.fakeport <;>
      cases harp : pkt.arp_pkt with
      | none => simp [_packet_in_handler, hf, hc, fake_port_mods, harp]
      | some a =>
        by_cases hop : a.opcode = ARP_REQUEST <;>
          simp [_packet_in_handler, hf, hc, fake_port_mods, harp, hop]
  · subst hp
    simp [_packet_in_handler, fake_port_mods, harp]
  · subst hp
    cases harp : pkt.arp_pkt with
    | none => simp [_packet_in_handler, fake_port_mods, harp]
    | some a =>
      simp [_packet_in_handler, fake_port_mods, harp, hop a harp, hnc]
  · simp [_packet_in_handler, h1, h2]

/-- Witness for C7: a non-IPv4 payload on the coprocessor port. -/
theorem irrelevant_packet_in_ignored_witness :
    _packet_in_handler default_config 1 sample_arp_pkt = [] :=
  irrelevant_packet_in_ignored default_config 1 sample_arp_pkt
    (Or.inl ⟨by rfl, Or.inl (by rfl)⟩)

/-- Claim C10: a packet-in on the fake-segment port never issues a
flow-table modification: every command is a packet-out, at most one is
issued, and exactly one is issued precisely when the payload is an ARP
request. -/
theorem fake_port_no_flow_mods (cfg : Config) (in_port : Nat) (pkt : PacketIn)
    (hport : in_port = cfg.fakeport) (hne : cfg.fakeport ≠ cfg.coproport) :
    (∀ c ∈ _packet_in_handler cfg in_port pkt, ∃ po, c = Command.packetOut po)
    ∧ (_packet_in_handler cfg in_port pkt).length ≤ 1
    ∧ ((∃ a, pkt.arp_pkt = some a ∧ a.opcode = ARP_REQUEST)
        ↔ (_packet_in_handler cfg in_port pkt).length = 1) := by
  subst hport
  cases harp : pkt.arp_pkt with
  | none =>
    simp [_packet_in_handler, fake_port_mods, harp, hne]
  | some a =>
    by_cases hop : a.opcode = ARP_REQUEST <;>
      simp [_packet_in_handler, fake_port_mods, harp, hop, hne]

/-- Witness for C10 at a concrete configuration and ARP request. -/
theorem fake_port_no_flow_mods_witness :
    (∀ c ∈ _packet_in_handler default_config 2 sample_arp_pkt,
        ∃ po, c = Command.packetOut po)
    ∧ (_packet_in_handler default_config 2 sample_arp_pkt).length ≤ 1
    ∧ ((∃ a, sample_arp_pkt.arp_pkt = some a ∧ a.opcode = ARP_REQUEST)
        ↔ (_packet_in_handler default_config 2 sample_arp_pkt).length = 1) :=
  fake_port_no_flow_mods default_config 2 sample_arp_pkt (by rfl) (by decide)

/-- Claim C6: for every learned flow, the reverse rule's match triple
(ipv4_dst, tcp_src, tcp_dst) equals the forward rule's rewritten
(ipv4_src, tcp_src, tcp_dst) with the two TCP ports swapped; and
applying the forward rewrite to the packet, then the reverse rewrite
to the answering packet, restores the original source/destination IP
addresses and TCP ports. -/
theorem fwd_rev_symmetry (cfg : Config) (eth : Ethernet) (ip4 : Ipv4Pkt)
    (tcp4 : TcpPkt) (p : PktState)
    (h1 : p.ipv4_src = ip4.src) (h2 : p.ipv4_dst = ip4.dst)
    (h3 : p.tcp_src = tcp4.src_port) (h4 : p.tcp_dst = tcp4.dst_port) :
    ((rev_match cfg ip4 tcp4).ipv4_dst =
        some (apply_action_list (fwd_actions cfg ip4) p).ipv4_src
      ∧ (rev_match cfg ip4 tcp4).tcp_src =
        some (apply_action_list (fwd_actions cfg ip4) p).tcp_dst
      ∧ (rev_match cfg ip4 tcp4).tcp_dst =
        some (apply_action_list (fwd_actions cfg ip4) p).tcp_src)
    ∧ ((apply_action_list (rev_actions cfg eth ip4)
          (swap_pkt (apply_action_list (fwd_actions cfg ip4) p))).ipv4_src = p.ipv4_dst
      ∧ (apply_action_list (rev_actions cfg eth ip4)
          (swap_pkt (apply_action_list (fwd_actions cfg ip4) p))).ipv4_dst = p.ipv4_src
      ∧ (apply_action_list (rev_actions cfg eth ip4)
          (swap_pkt (apply_action_list (fwd_actions cfg ip4) p))).tcp_src = p.tcp_dst
      ∧ (apply_action_list (rev_actions cfg eth ip4)
          (swap_pkt (apply_action_list (fwd_actions cfg ip4) p))).tcp_dst = p.tcp_src) := by
  simp [rev_match, rev_actions, fwd_actions, apply_action_list, apply_action, swap_pkt,
        h1, h2, h3, h4]

/-- Witness for C6 at a concrete flow and packet. -/
theorem fwd_rev_symmetry_witness :
    ((rev_match default_config sample_ip4 sample_tcp).ipv4_dst =
        some (apply_action_list (fwd_actions default_config sample_ip4)
          { eth_src := "0e:00:00:00:00:12", eth_dst := "0e:00:00:00:00:11",
            ipv4_src := sample_ip4.src, ipv4_dst := sample_ip4.dst,
            tcp_src := sample_tcp.src_port, tcp_dst := sample_tcp.dst_port,
            vlan_vid := none }).ipv4_src
      ∧ (rev_match default_config sample_ip4 sample_tcp).tcp_src =
        some (apply_action_list (fwd_actions default_config sample_ip4)
          { eth_src := "0e:00:00:00:00:12", eth_dst := "0e:00:00:00:00:11",
            ipv4_src := sample_ip4.src, ipv4_dst := sample_ip4.dst,
            tcp_src := sample_tcp.src_port, tcp_dst := sample_tcp.dst_port,
            vlan_vid := none }).tcp_dst
      ∧ (rev_match default_config sample_ip4 sample_tcp).tcp_dst =
        some (apply_action_list (fwd_actions default_config sample_ip4)
          { eth_src := "0e:00:00:00:00:12", eth_dst := "0e:00:00:00:00:11",
            ipv4_src := sample_ip4.src, ipv4_dst := sample_ip4.dst,
            tcp_src := sample_tcp.src_port, tcp_dst := sample_tcp.dst_port,
            vlan_vid := none }).tcp_src)
    ∧ ((apply_action_list (rev_actions default_config sample_eth sample_ip4)
          (swap_pkt (apply_action_list (fwd_actions default_config sample_ip4)
            { eth_src := "0e:00:00:00:00:12", eth_dst := "0e:00:00:00:00:11",
              ipv4_src := sample_ip4.src, ipv4_dst := sample_ip4.dst,
              tcp_src := sample_tcp.src_port, tcp_dst := sample_tcp.dst_port,
              vlan_vid := none }))).ipv4_src =
        ({ eth_src := "0e:00:00:00:00:12", eth_dst := "0e:00:00:00:00:11",
           ipv4_src := sample_ip4.src, ipv4_dst := sample_ip4.dst,
           tcp_src := sample_tcp.src_port, tcp_dst := sample_tcp.dst_port,
           vlan_vid := none } : PktState).ipv4_dst
      ∧ (apply_action_list (rev_actions default_config sample_eth sample_ip4)
          (swap_pkt (apply_action_list (fwd_actions default_config sample_ip4)
            { eth_src := "0e:00:00:00:00:12", eth_dst := "0e:00:00:00:00:11",
              ipv4_src := sample_ip4.src, ipv4_dst := sample_ip4.dst,
              tcp_src := sample_tcp.src_port, tcp_dst := sample_tcp.dst_port,
              vlan_vid := none }))).ipv4_dst =
        ({ eth_src := "0e:00:00:00:00:12", eth_dst := "0e:00:00:00:00:11",
           ipv4_src := sample_ip4.src, ipv4_dst := sample_ip4.dst,
           tcp_src := sample_tcp.src_port, tcp_dst := sample_tcp.dst_port,
           vlan_vid := none } : PktState).ipv4_src
      ∧ (apply_action_list (rev_actions default_config sample_eth sample_ip4)
          (swap_pkt (apply_action_list (fwd_actions default_config sample_ip4)
            { eth_src := "0e:00:00:00:00:12", eth_dst := "0e:00:00:00:00:11",
              ipv4_src := sample_ip4.src, ipv4_dst := sample_ip4.dst,
              tcp_src := sample_tcp.src_port, tcp_dst := sample_tcp.dst_port,
              vlan_vid := none }))).tcp_src =
        ({ eth_src := "0e:00:00:00:00:12", eth_dst := "0e:00:00:00:00:11",
           ipv4_src := sample_ip4.src, ipv4_dst := sample_ip4.dst,
           tcp_src := sample_tcp.src_port, tcp_dst := sample_tcp.dst_port,
           vlan_vid := none } : PktState).tcp_dst
      ∧ (apply_action_list (rev_actions default_config sample_eth sample_ip4)
          (swap_pkt (apply_action_list (fwd_actions default_config sample_ip4)
            { eth_src := "0e:00:00:00:00:12", eth_dst := "0e:00:00:00:00:11",
              ipv4_src := sample_ip4.src, ipv4_dst := sample_ip4.dst,
              tcp_src := sample_tcp.src_port, tcp_dst := sample_tcp.dst_port,
              vlan_vid := none }))).tcp_dst =
        ({ eth_src := "0e:00:00:00:00:12", eth_dst := "0e:00:00:00:00:11",
           ipv4_src := sample_ip4.src, ipv4_dst := sample_ip4.dst,
           tcp_src := sample_tcp.src_port, tcp_dst := sample_tcp.dst_port,
           vlan_vid := none } : PktState).tcp_src) :=
  fwd_rev_symmetry default_config sample_eth sample_ip4 sample_tcp
    { eth_src := "0e:00:00:00:00:12", eth_dst := "0e:00:00:00:00:11",
      ipv4_src := sample_ip4.src, ipv4_dst := sample_ip4.dst,
      tcp_src := sample_tcp.src_port, tcp_dst := sample_tcp.dst_port,
      vlan_vid := none }
    (by rfl) (by rfl) (by rfl) (by rfl)

/-! ## Flow-table invariant lemmas (replace-on-identical-match keeps keys unique) -/

theorem count_key_cons (hd : FlowMod) (tl : List FlowMod) (k : Nat × Nat × Match) :
    count_key (hd :: tl) k = (if flow_key hd = k then 1 else 0) + count_key tl k := by
  by_cases h : flow_key hd = k <;> simp [count_key, List.filter_cons, h, Nat.add_comm]

theorem count_key_eq_zero_of_not_mem (st : List FlowMod) (k : Nat × Nat × Match)
    (h : k ∉ st.map flow_key) : count_key st k = 0 := by
  induction st with
  | nil => rfl
  | cons hd tl ih =>
    simp only [List.map_cons, List.mem_cons, not_or] at h
    rw [count_key_cons, if_neg (fun he => h.1 he.symm), ih h.2]

theorem count_key_le_one_of_nodup (st : List FlowMod) (k : Nat × Nat × Match)
    (h : (st.map flow_key).Nodup) : count_key st k ≤ 1 := by
  induction st with
  | nil => exact Nat.zero_le 1
  | cons hd tl ih =>
    rw [List.map_cons, List.nodup_cons] at h
    rw [count_key_cons]
    by_cases he : flow_key hd = k
    · rw [if_pos he, count_key_eq_zero_of_not_mem tl k (he ▸ h.1)]
    · rw [if_neg he, Nat.zero_add]
      exact ih h.2

theorem apply_cmd_nodup_keys (st : List FlowMod) (c : Command)
    (h : (st.map flow_key).Nodup) : ((apply_cmd st c).map flow_key).Nodup := by
  match c with
  | Command.packetOut po => exact h
  | Command.flowMod fm =>
    by_cases hdel : fm.command = OFPFC_DELETE
    · simpa [apply_cmd, hdel] using
        List.Nodup.sublist ((List.filter_sublist st).map flow_key) h
    · by_cases hadd : fm.command = OFPFC_ADD
      · simp only [apply_cmd, hadd]
        rw [if_neg (by decide : ¬ (OFPFC_ADD = OFPFC_DELETE))]
        simp only [if_true]
        rw [List.map_append]
        refine List.nodup_append.mpr ⟨?_, List.nodup_singleton _, ?_⟩
        · exact List.Nodup.sublist ((List.filter_sublist st).map flow_key) h
        · intro a ha hb
          simp at hb
          subst hb
          obtain ⟨e, he, hek⟩ := List.mem_map.mp ha
          have := (List.mem_filter.mp he).2
          simp at this
          exact this (by rw [hek])
      · simpa [apply_cmd, hdel, hadd] using h

theorem apply_cmds_nodup_keys (cmds : List Command) (st : List FlowMod)
    (h : (st.map flow_key).Nodup) : ((cmds.foldl apply_cmd st).map flow_key).Nodup := by
  induction cmds generalizing st with
  | nil => exact h
  | cons c cs ih => exact ih _ (apply_cmd_nodup_keys st c h)

theorem run_events_aux_nodup (cfg : Config) (evs : List Event) (st : List FlowMod)
    (h : (st.map flow_key).Nodup) :
    ((evs.foldl (fun st ev => (event_cmds cfg ev).foldl apply_cmd st) st).map flow_key).Nodup := by
  induction evs generalizing st with
  | nil => exact h
  | cons e es ih => exact ih _ (apply_cmds_nodup_keys _ _ h)

theorem run_events_nodup_keys (cfg : Config) (evs : List Event) :
    ((run_events cfg evs).map flow_key).Nodup :=
  run_events_aux_nodup cfg evs [] (by simp)

/-- Claim C8 (amended): at every reachable switch state there are at
most two installed translation rules per learned flow tuple — at most
one forward rule in table 1 at priority 2 with that flow's forward
match, and at most one reverse rule in table 2 at priority 2 with its
reverse match — under replace-on-identical-match semantics.  (Per
address pair the bound fails: one real host can own many flows.) -/
theorem translation_rules_per_flow_at_most_two (cfg : Config) (evs : List Event)
    (eth : Ethernet) (ip4 : Ipv4Pkt) (tcp4 : TcpPkt) :
    count_key (run_events cfg evs) (1, 2, fwd_match eth ip4 tcp4)
      + count_key (run_events cfg evs) (2, 2, rev_match cfg ip4 tcp4) ≤ 2 := by
  have h := run_events_nodup_keys cfg evs
  have h1 := count_key_le_one_of_nodup _ (1, 2, fwd_match eth ip4 tcp4) h
  have h2 := count_key_le_one_of_nodup _ (2, 2, rev_match cfg ip4 tcp4) h
  omega

/-- Counterexample to claim C8 as stated: after a bootstrap and two
TCP packet-ins from the same real host 10.0.0.42 (source ports 5000
and 5001, both to 192.168.101.1:80), the reachable state holds four
translation rules for the single address pair
(10.0.0.42, 192.168.101.42) — two forward rules in table 1 and two
reverse rules in table 2 — exceeding the claimed bound of two. -/
theorem address_pair_rule_bound_fails :
    2 < rules_for_nat
      (run_events default_config
        [Event.features, Event.packetIn 1 sample_tcp_pkt, Event.packetIn 1 sample_tcp_pkt2])
      (src_ipv4_nat default_config sample_ip4.src) := by
  decide

/-- Claim C9 (amended): the six values coproport, fakeport,
fake-server MAC, fake-client MAC, VLAN id and fake-network interface
are read once at startup from the environment with the documented
defaults (1, 2, 0e:00:00:00:00:66, 0e:00:00:00:00:67, 2,
192.168.101.1/24); the idle-timeout is the hardcoded constant 30
seconds, not read from the environment, and learned flow rules carry
exactly this constant. -/
theorem config_defaults_idle_constant :
    loadConfig (fun _ => none) = some default_config
    ∧ (∀ env cfg, loadConfig env = some cfg →
        cfg.idle = 30
        ∧ ∀ (eth : Ethernet) (ip4 : Ipv4Pkt) (tcp4 : TcpPkt),
            (fwd_flowmod cfg eth ip4 tcp4).idle_timeout = 30
            ∧ (rev_flowmod cfg eth ip4 tcp4).idle_timeout = 30) := by
  refine ⟨by decide, ?_⟩
  intro env cfg h
  unfold loadConfig at h
  split at h
  · injection h with h
    subst h
    exact ⟨rfl, fun eth ip4 tcp4 => ⟨rfl, rfl⟩⟩
  · simp at h

/-- Witness for C9 (amended) at the empty environment. -/
theorem config_defaults_idle_constant_witness :
    default_config.idle = 30
    ∧ (fwd_flowmod default_config sample_eth sample_ip4 sample_tcp).idle_timeout = 30
    ∧ (rev_flowmod default_config sample_eth sample_ip4 sample_tcp).idle_timeout = 30 := by
  have h := config_defaults_idle_constant.2 (fun _ => none) default_config (by decide)
  exact ⟨h.1, (h.2 sample_eth sample_ip4 sample_tcp).1, (h.2 sample_eth sample_ip4 sample_tcp).2⟩

/-- Counterexample to claim C9 as stated: in an environment assigning
60 to every variable, the coprocessor port, fake port and VLAN id all
become 60, but the idle-timeout applied to learned flows stays 30 —
it is a hardcoded constant, not an environment-configurable value. -/
theorem idle_not_env_configurable :
    (loadConfig env_sixty).map (fun c => (c.coproport, c.fakeport, c.vlan, c.idle)) =
      some (60, 60, 60, 30) := by
  decide

end Pipette
